import Mathlib

/-!
Verification development for the tefla `models/resnet_v2.py` module: the
preactivation (v2) ResNet graph builder.  The graph construction is embedded
shallowly: tensors are symbolic expressions (`TExpr`) whose shape semantics
(`shapeOf`) follows the documented input/output shapes of the collaborator
primitives (SAME-padded convolution, max pooling, batch normalization,
global mean reduction).  The stride/dilation bookkeeping of
`resnet_utils.stack_blocks_dense`, the `Block` descriptor, the root stem's
max pool stride, and the end-points registry are not present in the
repository's source tree; they are modelled from the specification and are
marked as such in their doc comments.  Everything else is translated
directly from `src/models/resnet_v2.py`.
-/

namespace Tefla

/-- Shape of a rank-4 tensor `[batch, height, width, channels]`. -/
structure Shape where
  batch : Nat
  height : Nat
  width : Nat
  channels : Nat
deriving DecidableEq, Repr

/-- Ceiling division, the spatial-size arithmetic of SAME-padded stride-`b`
operations: an input extent `a` maps to `⌈a / b⌉`. -/
def cdiv (a b : Nat) : Nat := (a + b - 1) / b

/-- Symbolic tensor expressions: the graph nodes built by the module.
`conv2d` records output depth, filter size, stride, and whether batch
normalization / an activation are attached (tefla's `conv2d` applies them only
when the corresponding keyword arguments are supplied).  `conv2d_same` is
`resnet_utils.conv2d_same` (SAME-behaving convolution with explicit stride and
atrous rate).  `subsample` is `resnet_utils.subsample` (identity when the
factor is 1, else a 1x1 max pool with the given stride).  `max_pool` is the
root stem's `pool1`.  `reduce_mean_hw` is the keep-dims global average pool
over the two spatial axes. -/
inductive TExpr where
  | input : Shape → TExpr
  | batch_norm (act : Bool) (x : TExpr)
  | conv2d (depth : Nat) (filter : Nat × Nat) (stride : Nat × Nat)
      (bn : Bool) (act : Bool) (x : TExpr)
  | conv2d_same (depth ksize stride rate : Nat) (bn : Bool) (act : Bool) (x : TExpr)
  | subsample (stride : Nat) (x : TExpr)
  | max_pool (x : TExpr)
  | reduce_mean_hw (x : TExpr)
  | softmax (x : TExpr)
  | add (a b : TExpr)
deriving DecidableEq, Repr

/-- Modelled from the spec: shape semantics of the collaborator primitives
(section 6 of the specification documents them as black boxes with fixed
input/output shapes).  SAME-padded stride-`s` operations ceil-divide the
spatial extents by `s`; `add` requires both operands to agree and is the one
place an ill-shaped graph yields `none`. -/
def shapeOf : TExpr → Option Shape
  | .input s => some s
  | .batch_norm _ x => shapeOf x
  | .conv2d d _ (sh, sw) _ _ x =>
      (shapeOf x).map fun s => ⟨s.batch, cdiv s.height sh, cdiv s.width sw, d⟩
  | .conv2d_same d _ st _ _ _ x =>
      (shapeOf x).map fun s => ⟨s.batch, cdiv s.height st, cdiv s.width st, d⟩
  | .subsample st x =>
      if st = 1 then shapeOf x
      else (shapeOf x).map fun s => ⟨s.batch, cdiv s.height st, cdiv s.width st, s.channels⟩
  | .max_pool x =>
      (shapeOf x).map fun s => ⟨s.batch, cdiv s.height 2, cdiv s.width 2, s.channels⟩
  | .reduce_mean_hw x => (shapeOf x).map fun s => ⟨s.batch, 1, 1, s.channels⟩
  | .softmax x => shapeOf x
  | .add a b =>
      match shapeOf a, shapeOf b with
      | some s1, some s2 => if s1 = s2 then some s1 else none
      | _, _ => none

/-- The channel depth of a tensor expression; `util.last_dimension` of the
static shape. -/
def channelsOf (x : TExpr) : Nat := ((shapeOf x).map Shape.channels).getD 0

/-- The preactivation bottleneck residual unit, translated from `bottleneck`
in `src/models/resnet_v2.py`.  The pre-activated input feeds both the
projection shortcut and the residual path; the raw input feeds the
subsampling shortcut.  `conv1` and `conv2` carry batch normalization and an
activation (from the `conv_args` keyword arguments), while the `shortcut`
projection and `conv3` are built with `batch_norm=None, activation=None`. -/
def bottleneck (inputs : TExpr) (depth depth_bottleneck stride : Nat)
    (rate : Nat) : TExpr :=
  let depth_in := channelsOf inputs
  let preact := TExpr.batch_norm true inputs
  let shortcut :=
    if depth = depth_in then TExpr.subsample stride inputs
    else TExpr.conv2d depth (1, 1) (stride, stride) false false preact
  let residual := TExpr.conv2d depth_bottleneck (1, 1) (1, 1) true true preact
  let residual := TExpr.conv2d_same depth_bottleneck 3 stride rate true true residual
  let residual := TExpr.conv2d depth (1, 1) (1, 1) false false residual
  TExpr.add shortcut residual

/-- Per-unit argument tuple `(depth, depth_bottleneck, stride)` of a Block. -/
structure UnitArgs where
  depth : Nat
  depth_bottleneck : Nat
  stride : Nat
deriving DecidableEq, Repr

/-- Modelled from the spec: `resnet_utils.Block` — a scope name and an ordered
sequence of per-unit argument tuples.  The unit function is always
`bottleneck` in this module, so it is left implicit here. -/
structure Block where
  scope : String
  args : List UnitArgs
deriving DecidableEq, Repr

/-- A Python number: either an `int` or a `float`.  Needed because the module
performs true division (`output_stride /= 4`), which turns an `int` into a
`float`; comparisons between the two are by numeric value, as in Python. -/
inductive PyNum where
  | int : Int → PyNum
  | float : Rat → PyNum
deriving DecidableEq, Repr

/-- Numeric value of a Python number, for Python's value-based `==`. -/
def PyNum.val : PyNum → Rat
  | .int n => (n : Rat)
  | .float q => q

/-- State threaded through `stack_blocks_dense`: the net built so far, the
cumulative stride, and the atrous rate. -/
structure StackState where
  net : TExpr
  currentStride : Nat
  rate : Nat
deriving DecidableEq, Repr

/-- Modelled from the spec: one step of block stacking.  If a target output
stride is set and the cumulative stride has reached it, the unit is applied
with stride 1 and the rate is multiplied by the unit's nominal stride;
otherwise the unit is applied with its nominal stride, which is multiplied
into the cumulative stride. -/
def stackUnit (target : Option PyNum) (st : StackState) (u : UnitArgs) : StackState :=
  match target with
  | some t =>
      if (st.currentStride : Rat) = t.val then
        { net := bottleneck st.net u.depth u.depth_bottleneck 1 st.rate
          currentStride := st.currentStride
          rate := st.rate * u.stride }
      else
        { net := bottleneck st.net u.depth u.depth_bottleneck u.stride st.rate
          currentStride := st.currentStride * u.stride
          rate := st.rate }
  | none =>
      { net := bottleneck st.net u.depth u.depth_bottleneck u.stride st.rate
        currentStride := st.currentStride * u.stride
        rate := st.rate }

/-- Fold `stackUnit` over a list of units (block order, then intra-block
order). -/
def stackUnits (target : Option PyNum) (st : StackState) (units : List UnitArgs) :
    StackState :=
  units.foldl (stackUnit target) st

/-- Error message for an output stride that is not a multiple of 4, from
`src/models/resnet_v2.py`. -/
def valueErrorStride : String := "The output_stride needs to be a multiple of 4."

/-- Modelled from the spec: error message for an unreachable target output
stride (a configuration error raised after processing all units). -/
def valueErrorUnreachable : String := "The target output_stride cannot be reached."

/-- Modelled from the spec: `resnet_utils.stack_blocks_dense`.  Starting from
cumulative stride 1 and rate 1, every unit of every block is processed in
order via `stackUnit`; after processing all units, if a target was requested
but the cumulative stride differs from it, a configuration error is raised. -/
def stack_blocks_dense (net : TExpr) (blocks : List Block)
    (output_stride : Option PyNum) : Except String TExpr :=
  let st := stackUnits output_stride ⟨net, 1, 1⟩ (blocks.flatMap Block.args)
  match output_stride with
  | none => Except.ok st.net
  | some t =>
      if (st.currentStride : Rat) = t.val then Except.ok st.net
      else Except.error valueErrorUnreachable

/-- The output-stride handling at the top of `resnet_v2`: inside the
`include_root_block` branch, a non-`None` output stride is first checked to
be a multiple of 4 and then true-divided by 4 (accounting for the root
stem's stride); with `include_root_block = false` the output stride is
forwarded untouched as the original Python `int`. -/
def effectiveOutputStride (include_root_block : Bool) (output_stride : Option Int) :
    Except String (Option PyNum) :=
  if include_root_block then
    match output_stride with
    | none => Except.ok none
    | some n =>
        if n % 4 ≠ 0 then Except.error valueErrorStride
        else Except.ok (some (PyNum.float ((n : Rat) / 4)))
  else Except.ok (output_stride.map PyNum.int)

/-- A Python value, as far as the return statement of `resnet_v2` is
concerned: a single tensor, a dict of named tensors, or a tuple. -/
inductive PyVal where
  | tensor : TExpr → PyVal
  | dict : List (String × TExpr) → PyVal
  | tuple : List PyVal → PyVal

/-- True exactly on the `dict` constructor. -/
def PyVal.isDict : PyVal → Bool
  | .dict _ => true
  | _ => false

/-- True exactly on the `tuple` constructor. -/
def PyVal.isTuple : PyVal → Bool
  | .tuple _ => true
  | _ => false

/-- The local state of a `resnet_v2` call: the `net` local variable and the
end-points registry (modelled from the spec as the ordered mapping from stage
name to intermediate tensor populated during assembly). -/
structure NetResult where
  net : TExpr
  endPoints : List (String × TExpr)
deriving DecidableEq, Repr

/-- The body of `resnet_v2` from `src/models/resnet_v2.py`, with the `net`
local exposed: validate/divide the output stride (root-block branch only),
optionally build the root stem (`conv1` stride 2, `pool1` stride 2), run the
block stack, apply `postnorm`, optionally global-average-pool (`pool5`),
optionally append the `logits` 1x1 convolution (no batch norm, no
activation) and the softmax `predictions` head. -/
def resnet_v2_core (inputs : TExpr) (blocks : List Block)
    (num_classes : Option Nat) (global_pool : Bool)
    (output_stride : Option Int) (include_root_block : Bool) :
    Except String NetResult := do
  let target ← effectiveOutputStride include_root_block output_stride
  let net := inputs
  let (net, eps) :=
    if include_root_block then
      let c1 := TExpr.conv2d_same 64 7 2 1 false false net
      let p1 := TExpr.max_pool c1
      (p1, [("conv1", c1), ("pool1", p1)])
    else (net, ([] : List (String × TExpr)))
  let net ← stack_blocks_dense net blocks target
  let net := TExpr.batch_norm true net
  let eps := eps ++ [("postnorm", net)]
  let (net, eps) :=
    if global_pool then
      let p := TExpr.reduce_mean_hw net
      (p, eps ++ [("pool5", p)])
    else (net, eps)
  let (net, eps) :=
    match num_classes with
    | some nc =>
        let lg := TExpr.conv2d nc (1, 1) (1, 1) false false net
        (lg, eps ++ [("logits", lg)])
    | none => (net, eps)
  let eps :=
    match num_classes with
    | some _ => eps ++ [("predictions", TExpr.softmax net)]
    | none => eps
  pure ⟨net, eps⟩

/-- `resnet_v2` as actually written in the source: its return statement is
`return end_points(is_training)`, i.e. the call returns only the end-points
mapping, not the `(net, end_points)` pair its docstring describes. -/
def resnet_v2 (inputs : TExpr) (blocks : List Block)
    (num_classes : Option Nat) (global_pool : Bool)
    (output_stride : Option Int) (include_root_block : Bool) :
    Except String PyVal :=
  (resnet_v2_core inputs blocks num_classes global_pool output_stride
      include_root_block).map fun r => PyVal.dict r.endPoints

/-- Block configuration of `resnet_v2_50`. -/
def resnet_v2_50_blocks : List Block :=
  [ ⟨"block1", List.replicate 2 ⟨256, 64, 1⟩ ++ [⟨256, 64, 2⟩]⟩,
    ⟨"block2", List.replicate 3 ⟨512, 128, 1⟩ ++ [⟨512, 128, 2⟩]⟩,
    ⟨"block3", List.replicate 5 ⟨1024, 256, 1⟩ ++ [⟨1024, 256, 2⟩]⟩,
    ⟨"block4", List.replicate 3 ⟨2048, 512, 1⟩⟩ ]

/-- Block configuration of `resnet_v2_101`. -/
def resnet_v2_101_blocks : List Block :=
  [ ⟨"block1", List.replicate 2 ⟨256, 64, 1⟩ ++ [⟨256, 64, 2⟩]⟩,
    ⟨"block2", List.replicate 3 ⟨512, 128, 1⟩ ++ [⟨512, 128, 2⟩]⟩,
    ⟨"block3", List.replicate 22 ⟨1024, 256, 1⟩ ++ [⟨1024, 256, 2⟩]⟩,
    ⟨"block4", List.replicate 3 ⟨2048, 512, 1⟩⟩ ]

/-- Block configuration of `resnet_v2_152`. -/
def resnet_v2_152_blocks : List Block :=
  [ ⟨"block1", List.replicate 2 ⟨256, 64, 1⟩ ++ [⟨256, 64, 2⟩]⟩,
    ⟨"block2", List.replicate 7 ⟨512, 128, 1⟩ ++ [⟨512, 128, 2⟩]⟩,
    ⟨"block3", List.replicate 35 ⟨1024, 256, 1⟩ ++ [⟨1024, 256, 2⟩]⟩,
    ⟨"block4", List.replicate 3 ⟨2048, 512, 1⟩⟩ ]

/-- Block configuration of `resnet_v2_200`. -/
def resnet_v2_200_blocks : List Block :=
  [ ⟨"block1", List.replicate 2 ⟨256, 64, 1⟩ ++ [⟨256, 64, 2⟩]⟩,
    ⟨"block2", List.replicate 23 ⟨512, 128, 1⟩ ++ [⟨512, 128, 2⟩]⟩,
    ⟨"block3", List.replicate 35 ⟨1024, 256, 1⟩ ++ [⟨1024, 256, 2⟩]⟩,
    ⟨"block4", List.replicate 3 ⟨2048, 512, 1⟩⟩ ]

/-- `resnet_v2_50`: delegates to `resnet_v2` with its fixed blocks and
`include_root_block = true`. -/
def resnet_v2_50 (inputs : TExpr) (num_classes : Option Nat)
    (global_pool : Bool) (output_stride : Option Int) : Except String PyVal :=
  resnet_v2 inputs resnet_v2_50_blocks num_classes global_pool output_stride true

/-- `resnet_v2_101`: delegates to `resnet_v2` with its fixed blocks and
`include_root_block = true`. -/
def resnet_v2_101 (inputs : TExpr) (num_classes : Option Nat)
    (global_pool : Bool) (output_stride : Option Int) : Except String PyVal :=
  resnet_v2 inputs resnet_v2_101_blocks num_classes global_pool output_stride true

/-- `resnet_v2_152`: delegates to `resnet_v2` with its fixed blocks and
`include_root_block = true`. -/
def resnet_v2_152 (inputs : TExpr) (num_classes : Option Nat)
    (global_pool : Bool) (output_stride : Option Int) : Except String PyVal :=
  resnet_v2 inputs resnet_v2_152_blocks num_classes global_pool output_stride true

/-- `resnet_v2_200`: delegates to `resnet_v2` with its fixed blocks and
`include_root_block = true`. -/
def resnet_v2_200 (inputs : TExpr) (num_classes : Option Nat)
    (global_pool : Bool) (output_stride : Option Int) : Except String PyVal :=
  resnet_v2 inputs resnet_v2_200_blocks num_classes global_pool output_stride true

/-- Product of the nominal strides of a list of units. -/
def strideProduct (units : List UnitArgs) : Nat :=
  (units.map UnitArgs.stride).prod

/-- Left operand of an `add` node: the shortcut path of a residual unit. -/
def shortcutOf : TExpr → Option TExpr
  | .add a _ => some a
  | _ => none

/-- Right operand of an `add` node: the residual path of a residual unit. -/
def residualOf : TExpr → Option TExpr
  | .add _ b => some b
  | _ => none

/-! ## Helper lemmas -/

theorem cdiv_one (a : Nat) : cdiv a 1 = a := by simp [cdiv]

theorem cdiv_two_mul (m : Nat) : cdiv (2 * m) 2 = m := by
  unfold cdiv
  omega

theorem channelsOf_eq {x : TExpr} {s : Shape} (hx : shapeOf x = some s) :
    channelsOf x = s.channels := by
  simp [channelsOf, hx]

/-- Shape behaviour of a bottleneck unit: batch and spatial dims follow the
stride (SAME semantics), channels become the requested output depth. -/
theorem shapeOf_bottleneck {x : TExpr} {b h w c : Nat}
    (hx : shapeOf x = some ⟨b, h, w, c⟩) (d db s r : Nat) :
    shapeOf (bottleneck x d db s r) = some ⟨b, cdiv h s, cdiv w s, d⟩ := by
  have hc : channelsOf x = c := channelsOf_eq hx
  by_cases hd : d = c
  · by_cases hs : s = 1
    · subst hs
      simp [bottleneck, hc, hd, shapeOf, hx, cdiv_one]
    · simp [bottleneck, hc, hd, shapeOf, hx, hs, cdiv_one]
  · simp [bottleneck, hc, hd, shapeOf, hx, cdiv_one]

theorem stack_error_eq {net : TExpr} {blocks : List Block} {t : Option PyNum}
    {e : String} (h : stack_blocks_dense net blocks t = Except.error e) :
    e = valueErrorUnreachable := by
  unfold stack_blocks_dense at h
  cases t with
  | none => simp at h
  | some t =>
      by_cases hc : ((stackUnits (some t) ⟨net, 1, 1⟩ (blocks.flatMap Block.args)).currentStride : Rat) = t.val
      · simp [hc] at h
      · simp [hc] at h
        exact h.symm

theorem stackUnits_cons (t : Option PyNum) (u : UnitArgs) (l : List UnitArgs)
    (st : StackState) :
    stackUnits t st (u :: l) = stackUnits t (stackUnit t st u) l := rfl

theorem stackUnits_append (t : Option PyNum) (l1 l2 : List UnitArgs)
    (st : StackState) :
    stackUnits t st (l1 ++ l2) = stackUnits t (stackUnits t st l1) l2 := by
  simp [stackUnits, List.foldl_append]

theorem strideProduct_cons (u : UnitArgs) (l : List UnitArgs) :
    strideProduct (u :: l) = u.stride * strideProduct l := by
  simp [strideProduct]

theorem strideProduct_append (l1 l2 : List UnitArgs) :
    strideProduct (l1 ++ l2) = strideProduct l1 * strideProduct l2 := by
  simp [strideProduct]

theorem strideProduct_pos {l : List UnitArgs} (h : ∀ u ∈ l, 1 ≤ u.stride) :
    0 < strideProduct l := by
  apply List.prod_pos
  intro a ha
  rcases List.mem_map.mp ha with ⟨u, hu, rfl⟩
  exact h u hu

/-- Once the cumulative stride equals the target value, it stays there. -/
theorem stackUnits_stay (t : PyNum) (l : List UnitArgs) :
    ∀ st : StackState, (st.currentStride : Rat) = t.val →
      ((stackUnits (some t) st l).currentStride : Rat) = t.val := by
  induction l with
  | nil => intro st h; exact h
  | cons u l ih =>
      intro st h
      rw [stackUnits_cons]
      apply ih
      simp [stackUnit, h]

/-- The cumulative stride either has reached the target value or equals the
initial cumulative stride times the product of the processed nominal
strides. -/
theorem stackUnits_track (t : PyNum) (l : List UnitArgs) :
    ∀ st : StackState,
      ((stackUnits (some t) st l).currentStride : Rat) = t.val ∨
      (stackUnits (some t) st l).currentStride =
        st.currentStride * strideProduct l := by
  induction l with
  | nil => intro st; right; simp [stackUnits, strideProduct]
  | cons u l ih =>
      intro st
      by_cases h : (st.currentStride : Rat) = t.val
      · left; exact stackUnits_stay t (u :: l) st h
      · have hstep : stackUnit (some t) st u =
            ⟨bottleneck st.net u.depth u.depth_bottleneck u.stride st.rate,
              st.currentStride * u.stride, st.rate⟩ := by
          simp [stackUnit, h]
        rw [stackUnits_cons, hstep]
        rcases ih ⟨bottleneck st.net u.depth u.depth_bottleneck u.stride st.rate,
          st.currentStride * u.stride, st.rate⟩ with hl | hr
        · left; exact hl
        · right; rw [hr, strideProduct_cons]; ring

/-- If the cumulative stride has reached the target value, then either it
started there or some prefix of the processed units multiplies out to it. -/
theorem stackUnits_hit (t : PyNum) (l : List UnitArgs) :
    ∀ st : StackState,
      ((stackUnits (some t) st l).currentStride : Rat) = t.val →
      (st.currentStride : Rat) = t.val ∨
        ∃ m, m ≤ l.length ∧
          ((st.currentStride * strideProduct (l.take m) : Nat) : Rat) = t.val := by
  induction l with
  | nil => intro st h; left; exact h
  | cons u l ih =>
      intro st h
      by_cases hc : (st.currentStride : Rat) = t.val
      · left; exact hc
      · right
        have hstep : stackUnit (some t) st u =
            ⟨bottleneck st.net u.depth u.depth_bottleneck u.stride st.rate,
              st.currentStride * u.stride, st.rate⟩ := by
          simp [stackUnit, hc]
        rw [stackUnits_cons, hstep] at h
        rcases ih _ h with h1 | ⟨m, hm, hv⟩
        · refine ⟨1, Nat.succ_le_succ (Nat.zero_le _), ?_⟩
          simpa [strideProduct] using h1
        · refine ⟨m + 1, Nat.succ_le_succ hm, ?_⟩
          rw [List.take_succ_cons, strideProduct_cons, ← Nat.mul_assoc]
          exact hv

/-- With no target output stride, a run of `n` stride-1 units preserves the
spatial dimensions and ends at the units' output depth (or the input depth
when `n = 0`). -/
theorem shape_stackUnits_replicate_one (n d db : Nat) :
    ∀ (st : StackState) (b h w c : Nat), shapeOf st.net = some ⟨b, h, w, c⟩ →
      shapeOf (stackUnits none st (List.replicate n ⟨d, db, 1⟩)).net =
        some ⟨b, h, w, if n = 0 then c else d⟩ := by
  induction n with
  | zero => intro st b h w c hst; simpa [stackUnits] using hst
  | succ n ih =>
      intro st b h w c hst
      have hrep : List.replicate (n + 1) (⟨d, db, 1⟩ : UnitArgs) =
          ⟨d, db, 1⟩ :: List.replicate n ⟨d, db, 1⟩ := rfl
      rw [hrep, stackUnits_cons]
      have hnew : shapeOf (stackUnit none st ⟨d, db, 1⟩).net = some ⟨b, h, w, d⟩ := by
        simp only [stackUnit]
        simpa [cdiv_one] using shapeOf_bottleneck hst d db 1 st.rate
      rw [ih (stackUnit none st ⟨d, db, 1⟩) b h w d hnew]
      simp

/-- With no target output stride, a block of `n` stride-1 units followed by
one stride-2 unit halves the spatial dimensions (SAME semantics) and ends at
the block's output depth. -/
theorem shape_stackUnits_block (n d db : Nat) (st : StackState) (b h w c : Nat)
    (hst : shapeOf st.net = some ⟨b, h, w, c⟩) :
    shapeOf (stackUnits none st
        (List.replicate n ⟨d, db, 1⟩ ++ [⟨d, db, 2⟩])).net =
      some ⟨b, cdiv h 2, cdiv w 2, d⟩ := by
  rw [stackUnits_append]
  have h1 := shape_stackUnits_replicate_one n d db st b h w c hst
  have h2 : stackUnits none (stackUnits none st (List.replicate n ⟨d, db, 1⟩))
      [⟨d, db, 2⟩] =
      stackUnit none (stackUnits none st (List.replicate n ⟨d, db, 1⟩)) ⟨d, db, 2⟩ := rfl
  rw [h2]
  simp only [stackUnit]
  exact shapeOf_bottleneck h1 d db 2 _

/-- Shape of the pre-classification-head tensor for a standard four-block
variant configuration on a 32k-by-32k input: the root stem contributes a
factor of 4, the stride-2 unit closing each of the first three blocks a
factor of 2 each, and the all-stride-1 fourth block leaves 2048 channels at
spatial size k-by-k — a total downsampling factor of 32. -/
theorem variant_core_shape (n1 n2 n3 n4 : Nat) (blocks : List Block)
    (hb : blocks =
      [⟨"block1", List.replicate n1 ⟨256, 64, 1⟩ ++ [⟨256, 64, 2⟩]⟩,
       ⟨"block2", List.replicate n2 ⟨512, 128, 1⟩ ++ [⟨512, 128, 2⟩]⟩,
       ⟨"block3", List.replicate n3 ⟨1024, 256, 1⟩ ++ [⟨1024, 256, 2⟩]⟩,
       ⟨"block4", List.replicate n4 ⟨2048, 512, 1⟩⟩])
    (h4 : n4 ≠ 0) (bt k c : Nat) :
    (resnet_v2_core (TExpr.input ⟨bt, 32 * k, 32 * k, c⟩) blocks
        none false none true).map (fun r => shapeOf r.net) =
      Except.ok (some ⟨bt, k, k, 2048⟩) := by
  subst hb
  have e32 : cdiv (32 * k) 2 = 16 * k := by
    rw [show 32 * k = 2 * (16 * k) from by ring]; exact cdiv_two_mul (16 * k)
  have e16 : cdiv (16 * k) 2 = 8 * k := by
    rw [show 16 * k = 2 * (8 * k) from by ring]; exact cdiv_two_mul (8 * k)
  have e8 : cdiv (8 * k) 2 = 4 * k := by
    rw [show 8 * k = 2 * (4 * k) from by ring]; exact cdiv_two_mul (4 * k)
  have e4 : cdiv (4 * k) 2 = 2 * k := by
    rw [show 4 * k = 2 * (2 * k) from by ring]; exact cdiv_two_mul (2 * k)
  have e2 : cdiv (2 * k) 2 = k := cdiv_two_mul k
  have hstem : shapeOf (TExpr.max_pool
      (TExpr.conv2d_same 64 7 2 1 false false (TExpr.input ⟨bt, 32 * k, 32 * k, c⟩))) =
      some ⟨bt, 8 * k, 8 * k, 64⟩ := by
    simp [shapeOf, e32, e16]
  have hcore : resnet_v2_core (TExpr.input ⟨bt, 32 * k, 32 * k, c⟩)
      [⟨"block1", List.replicate n1 ⟨256, 64, 1⟩ ++ [⟨256, 64, 2⟩]⟩,
       ⟨"block2", List.replicate n2 ⟨512, 128, 1⟩ ++ [⟨512, 128, 2⟩]⟩,
       ⟨"block3", List.replicate n3 ⟨1024, 256, 1⟩ ++ [⟨1024, 256, 2⟩]⟩,
       ⟨"block4", List.replicate n4 ⟨2048, 512, 1⟩⟩]
      none false none true =
      Except.ok
        ⟨TExpr.batch_norm true
          (stackUnits none
            ⟨TExpr.max_pool (TExpr.conv2d_same 64 7 2 1 false false
                (TExpr.input ⟨bt, 32 * k, 32 * k, c⟩)), 1, 1⟩
            (([⟨"block1", List.replicate n1 ⟨256, 64, 1⟩ ++ [⟨256, 64, 2⟩]⟩,
               ⟨"block2", List.replicate n2 ⟨512, 128, 1⟩ ++ [⟨512, 128, 2⟩]⟩,
               ⟨"block3", List.replicate n3 ⟨1024, 256, 1⟩ ++ [⟨1024, 256, 2⟩]⟩,
               ⟨"block4", List.replicate n4 ⟨2048, 512, 1⟩⟩] : List Block).flatMap
              Block.args)).net,
         [("conv1", TExpr.conv2d_same 64 7 2 1 false false
              (TExpr.input ⟨bt, 32 * k, 32 * k, c⟩)),
          ("pool1", TExpr.max_pool (TExpr.conv2d_same 64 7 2 1 false false
              (TExpr.input ⟨bt, 32 * k, 32 * k, c⟩))),
          ("postnorm", TExpr.batch_norm true
            (stackUnits none
              ⟨TExpr.max_pool (TExpr.conv2d_same 64 7 2 1 false false
                  (TExpr.input ⟨bt, 32 * k, 32 * k, c⟩)), 1, 1⟩
              (([⟨"block1", List.replicate n1 ⟨256, 64, 1⟩ ++ [⟨256, 64, 2⟩]⟩,
                 ⟨"block2", List.replicate n2 ⟨512, 128, 1⟩ ++ [⟨512, 128, 2⟩]⟩,
                 ⟨"block3", List.replicate n3 ⟨1024, 256, 1⟩ ++ [⟨1024, 256, 2⟩]⟩,
                 ⟨"block4", List.replicate n4 ⟨2048, 512, 1⟩⟩] : List Block).flatMap
                Block.args)).net)]⟩ := rfl
  rw [hcore]
  have hflat : (([⟨"block1", List.replicate n1 ⟨256, 64, 1⟩ ++ [⟨256, 64, 2⟩]⟩,
       ⟨"block2", List.replicate n2 ⟨512, 128, 1⟩ ++ [⟨512, 128, 2⟩]⟩,
       ⟨"block3", List.replicate n3 ⟨1024, 256, 1⟩ ++ [⟨1024, 256, 2⟩]⟩,
       ⟨"block4", List.replicate n4 ⟨2048, 512, 1⟩⟩] : List Block).flatMap Block.args) =
      (List.replicate n1 ⟨256, 64, 1⟩ ++ [⟨256, 64, 2⟩]) ++
        ((List.replicate n2 ⟨512, 128, 1⟩ ++ [⟨512, 128, 2⟩]) ++
          ((List.replicate n3 ⟨1024, 256, 1⟩ ++ [⟨1024, 256, 2⟩]) ++
            List.replicate n4 ⟨2048, 512, 1⟩)) := by
    simp [List.flatMap]
  rw [hflat]
  rw [stackUnits_append, stackUnits_append, stackUnits_append]
  have hb1 := shape_stackUnits_block n1 256 64
    ⟨TExpr.max_pool (TExpr.conv2d_same 64 7 2 1 false false
        (TExpr.input ⟨bt, 32 * k, 32 * k, c⟩)), 1, 1⟩ bt (8 * k) (8 * k) 64 hstem
  rw [e8] at hb1
  have hb2 := shape_stackUnits_block n2 512 128 _ bt (4 * k) (4 * k) 256 hb1
  rw [e4] at hb2
  have hb3 := shape_stackUnits_block n3 1024 256 _ bt (2 * k) (2 * k) 512 hb2
  rw [e2] at hb3
  have hb4 := shape_stackUnits_replicate_one n4 2048 512 _ bt k k 1024 hb3
  rw [if_neg h4] at hb4
  simp only [Except.map]
  rw [show shapeOf (TExpr.batch_norm true
      (stackUnits none (stackUnits none (stackUnits none (stackUnits none
        ⟨TExpr.max_pool (TExpr.conv2d_same 64 7 2 1 false false
            (TExpr.input ⟨bt, 32 * k, 32 * k, c⟩)), 1, 1⟩
        (List.replicate n1 ⟨256, 64, 1⟩ ++ [⟨256, 64, 2⟩]))
        (List.replicate n2 ⟨512, 128, 1⟩ ++ [⟨512, 128, 2⟩]))
        (List.replicate n3 ⟨1024, 256, 1⟩ ++ [⟨1024, 256, 2⟩]))
        (List.replicate n4 ⟨2048, 512, 1⟩)).net) =
      shapeOf (stackUnits none (stackUnits none (stackUnits none (stackUnits none
        ⟨TExpr.max_pool (TExpr.conv2d_same 64 7 2 1 false false
            (TExpr.input ⟨bt, 32 * k, 32 * k, c⟩)), 1, 1⟩
        (List.replicate n1 ⟨256, 64, 1⟩ ++ [⟨256, 64, 2⟩]))
        (List.replicate n2 ⟨512, 128, 1⟩ ++ [⟨512, 128, 2⟩]))
        (List.replicate n3 ⟨1024, 256, 1⟩ ++ [⟨1024, 256, 2⟩]))
        (List.replicate n4 ⟨2048, 512, 1⟩)).net from rfl]
  rw [hb4]

/-! ## Claim theorems -/

/-- C1: the source's `resnet_v2` returns only the end-points mapping (its
return statement is `return end_points(is_training)`), not the pair of a
final output tensor and the mapping that its docstring and the specification
describe.  Evaluated here at a concrete successful `resnet_v2_50`-configured
call: the returned Python value is a dict and not a tuple. -/
theorem c1_returns_only_endpoints_mapping :
    (resnet_v2 (TExpr.input ⟨1, 224, 224, 3⟩) resnet_v2_50_blocks
        (some 5) true none true).map PyVal.isDict = Except.ok true ∧
    (resnet_v2 (TExpr.input ⟨1, 224, 224, 3⟩) resnet_v2_50_blocks
        (some 5) true none true).map PyVal.isTuple = Except.ok false :=
  ⟨rfl, rfl⟩

/-- C2 counterexample: a call to `resnet_v2` with `include_root_block =
false` and `output_stride = 6` (not a multiple of 4) does not fail with the
multiple-of-4 configuration error before block processing; the stride 6 is
forwarded to the block stack, every unit is processed, and the failure is
the unreachable-stride error raised after stack assembly. -/
theorem c2_counterexample :
    ((6 : Int) % 4 ≠ 0) ∧
    resnet_v2 (TExpr.input ⟨1, 224, 224, 3⟩) [⟨"b", [⟨4, 1, 2⟩]⟩]
        none true (some 6) false = Except.error valueErrorUnreachable ∧
    valueErrorUnreachable ≠ valueErrorStride := by
  refine ⟨by decide, rfl, by decide⟩

/-- C2 (amended): for every call to `resnet_v2` with `include_root_block =
true` and a non-`None` output stride that is not a multiple of 4, the call
fails with the multiple-of-4 configuration error, and the failure already
occurs in the output-stride validation phase — before the root stem, the
block stack, or anything else touches the input (the result is the same for
every input tensor and every block list). -/
theorem c2_validation_error (inputs : TExpr) (blocks : List Block)
    (nc : Option Nat) (gp : Bool) (n : Int) (hn : n % 4 ≠ 0) :
    effectiveOutputStride true (some n) = Except.error valueErrorStride ∧
    resnet_v2 inputs blocks nc gp (some n) true = Except.error valueErrorStride := by
  have h1 : effectiveOutputStride true (some n) = Except.error valueErrorStride := by
    simp [effectiveOutputStride, hn]
  refine ⟨h1, ?_⟩
  unfold resnet_v2 resnet_v2_core
  rw [h1]
  rfl

/-- Witness for the amended C2 at `output_stride = 6`. -/
theorem c2_validation_error_witness :
    ((6 : Int) % 4 ≠ 0) ∧
    resnet_v2 (TExpr.input ⟨1, 2, 2, 3⟩) [] none true (some 6) true =
      Except.error valueErrorStride :=
  ⟨by decide,
    (c2_validation_error (TExpr.input ⟨1, 2, 2, 3⟩) [] none true 6 (by decide)).2⟩

/-- C10: the multiple-of-4 validation and the division by 4 happen only when
`include_root_block` is true.  With `include_root_block = false` any
output stride — including one that is not a multiple of 4 — is forwarded to
the block stack unvalidated and undivided as the original Python `int`, and
no call in that mode can fail with the multiple-of-4 error; with
`include_root_block = true` a valid output stride is true-divided by 4,
yielding a Python `float` (not an `int` object) that is handed to the block
stack. -/
theorem c10_validation_only_with_root_block :
    (∀ os : Int, effectiveOutputStride false (some os) =
        Except.ok (some (PyNum.int os)))
    ∧ (∀ (inputs : TExpr) (blocks : List Block) (nc : Option Nat) (gp : Bool)
          (os : Option Int),
        resnet_v2 inputs blocks nc gp os false ≠ Except.error valueErrorStride)
    ∧ (∀ os : Int, os % 4 = 0 →
        effectiveOutputStride true (some os) =
          Except.ok (some (PyNum.float ((os : Rat) / 4))) ∧
        ∀ m : Int, PyNum.float ((os : Rat) / 4) ≠ PyNum.int m) := by
  refine ⟨fun os => rfl, ?_, fun os hos => ⟨by simp [effectiveOutputStride, hos], fun m => by simp⟩⟩
  intro inputs blocks nc gp os h
  have heff : effectiveOutputStride false os = Except.ok (os.map PyNum.int) := rfl
  rw [resnet_v2, resnet_v2_core] at h
  rw [heff] at h
  simp only [Except.bind, bind] at h
  cases hst : stack_blocks_dense inputs blocks (os.map PyNum.int) with
  | ok v => simp [hst, Except.map, pure, Except.pure] at h
  | error e =>
      have he : e = valueErrorUnreachable := stack_error_eq hst
      subst he
      simp [hst, Except.map] at h
      simp [valueErrorUnreachable, valueErrorStride] at h

/-- C5: in the bottleneck unit, the shortcut path is a plain subsampling of
the (raw) input exactly when the requested output depth equals the input
depth; otherwise it is a 1x1 projection convolution at the unit's stride with
no activation and no normalization, applied to the pre-activated input. -/
theorem c5_bottleneck_shortcut (x : TExpr) (d db s r : Nat) :
    (shortcutOf (bottleneck x d db s r) = some (TExpr.subsample s x) ↔
        d = channelsOf x)
    ∧ (d ≠ channelsOf x →
        shortcutOf (bottleneck x d db s r) =
          some (TExpr.conv2d d (1, 1) (s, s) false false (TExpr.batch_norm true x))) := by
  by_cases hd : d = channelsOf x <;> simp [bottleneck, shortcutOf, hd]

/-- Witness for C5 at a depth-changing unit: input depth 8, output depth 16,
stride 2 — the shortcut is the activation-free, normalization-free 1x1
projection. -/
theorem c5_bottleneck_shortcut_witness :
    (16 : Nat) ≠ channelsOf (TExpr.input ⟨1, 4, 4, 8⟩) ∧
    shortcutOf (bottleneck (TExpr.input ⟨1, 4, 4, 8⟩) 16 4 2 1) =
      some (TExpr.conv2d 16 (1, 1) (2, 2) false false
        (TExpr.batch_norm true (TExpr.input ⟨1, 4, 4, 8⟩))) :=
  ⟨by decide, (c5_bottleneck_shortcut (TExpr.input ⟨1, 4, 4, 8⟩) 16 4 2 1).2 (by decide)⟩

/-- C6: the bottleneck unit's output is the elementwise sum of the shortcut
and a residual path of exactly three staged convolutions on the
pre-activated input: a 1x1 reduction to the bottleneck depth at stride 1, a
3x3 convolution at the unit's stride and rate, and a 1x1 expansion to the
output depth with no activation and no normalization. -/
theorem c6_bottleneck_residual (x : TExpr) (d db s r : Nat) :
    bottleneck x d db s r =
      TExpr.add
        (if d = channelsOf x then TExpr.subsample s x
         else TExpr.conv2d d (1, 1) (s, s) false false (TExpr.batch_norm true x))
        (TExpr.conv2d d (1, 1) (1, 1) false false
          (TExpr.conv2d_same db 3 s r true true
            (TExpr.conv2d db (1, 1) (1, 1) true true (TExpr.batch_norm true x)))) := rfl

/-- C8: all four variant constructors configure a fourth and final block
whose units all have output depth 2048. -/
theorem c8_final_block_depth_2048 :
    ∀ blocks ∈ [resnet_v2_50_blocks, resnet_v2_101_blocks,
        resnet_v2_152_blocks, resnet_v2_200_blocks],
      blocks.length = 4 ∧
      ((blocks.drop 3).flatMap Block.args).length = 3 ∧
      ∀ u ∈ (blocks.drop 3).flatMap Block.args, u.depth = 2048 := by decide

/-- Witness for C8 at the resnet-50 configuration. -/
theorem c8_final_block_depth_2048_witness :
    resnet_v2_50_blocks.length = 4 ∧
    ((resnet_v2_50_blocks.drop 3).flatMap Block.args).length = 3 ∧
    ∀ u ∈ (resnet_v2_50_blocks.drop 3).flatMap Block.args, u.depth = 2048 :=
  c8_final_block_depth_2048 resnet_v2_50_blocks (by simp)

/-- C9: a bottleneck unit whose output depth equals the input's channel
depth, applied at stride 1, preserves the input shape exactly. -/
theorem c9_bottleneck_shape_preserving (x : TExpr) (s : Shape) (db r : Nat)
    (hx : shapeOf x = some s) :
    shapeOf (bottleneck x s.channels db 1 r) = some s := by
  obtain ⟨b, h, w, c⟩ := s
  simpa [cdiv_one] using shapeOf_bottleneck hx c db 1 r

/-- C3 counterexample: with a target output stride of 6 and three units of
nominal stride 2, the cumulative stride passes the target without ever
equalling it and ends at 8, exceeding the target — so the invariant claimed
for every target output stride fails for targets no prefix product attains. -/
theorem c3_counterexample :
    (PyNum.int 6).val = ((6 : Nat) : Rat) ∧
    (stackUnits (some (PyNum.int 6)) ⟨TExpr.input ⟨1, 8, 8, 4⟩, 1, 1⟩
        [⟨4, 1, 2⟩, ⟨4, 1, 2⟩, ⟨4, 1, 2⟩]).currentStride = 8 ∧
    ¬ (8 ≤ 6) :=
  ⟨by norm_num [PyNum.val], by decide, by decide⟩

/-- C3 (amended): during block stacking with a target output stride whose
value is attained by the cumulative product of the nominal unit strides at
some prefix (a reachable target), the invariant holds at every prefix of the
unit sequence: the cumulative stride never exceeds the target; while it is
below the target the next unit is applied with its nominal stride, which is
multiplied into the cumulative stride with the rate unchanged; and once it
equals the target every subsequent unit is applied with stride 1 and its
nominal stride is multiplied into the dilation rate instead, the cumulative
stride staying at the target. -/
theorem c3_stride_budget_invariant (units : List UnitArgs) (t : PyNum) (n : Nat)
    (ht : t.val = (n : Rat))
    (hstr : ∀ u ∈ units, 1 ≤ u.stride)
    (hreach : ∃ m, m ≤ units.length ∧ strideProduct (units.take m) = n)
    (net : TExpr) (j : Nat) :
    (stackUnits (some t) ⟨net, 1, 1⟩ (units.take j)).currentStride ≤ n ∧
    ∀ u, units[j]? = some u →
      ((stackUnits (some t) ⟨net, 1, 1⟩ (units.take j)).currentStride < n →
        stackUnits (some t) ⟨net, 1, 1⟩ (units.take (j + 1)) =
          ⟨bottleneck (stackUnits (some t) ⟨net, 1, 1⟩ (units.take j)).net
              u.depth u.depth_bottleneck u.stride
              (stackUnits (some t) ⟨net, 1, 1⟩ (units.take j)).rate,
            (stackUnits (some t) ⟨net, 1, 1⟩ (units.take j)).currentStride * u.stride,
            (stackUnits (some t) ⟨net, 1, 1⟩ (units.take j)).rate⟩) ∧
      ((stackUnits (some t) ⟨net, 1, 1⟩ (units.take j)).currentStride = n →
        stackUnits (some t) ⟨net, 1, 1⟩ (units.take (j + 1)) =
          ⟨bottleneck (stackUnits (some t) ⟨net, 1, 1⟩ (units.take j)).net
              u.depth u.depth_bottleneck 1
              (stackUnits (some t) ⟨net, 1, 1⟩ (units.take j)).rate,
            n,
            (stackUnits (some t) ⟨net, 1, 1⟩ (units.take j)).rate * u.stride⟩) := by
  obtain ⟨m0, hm0, hp0⟩ := hreach
  constructor
  · by_cases hj : m0 ≤ j
    · have hcsm0 : ((stackUnits (some t) ⟨net, 1, 1⟩ (units.take m0)).currentStride
          : Rat) = t.val := by
        rcases stackUnits_track t (units.take m0) ⟨net, 1, 1⟩ with h | h
        · exact h
        · rw [h, Nat.one_mul, hp0, ht]
      have hsplit : units.take j = units.take m0 ++ (units.take j).drop m0 := by
        have h1 : (units.take j).take m0 = units.take m0 := by
          rw [List.take_take, Nat.min_eq_left hj]
        conv_lhs => rw [← List.take_append_drop m0 (units.take j)]
        rw [h1]
      have hstay := stackUnits_stay t ((units.take j).drop m0)
        (stackUnits (some t) ⟨net, 1, 1⟩ (units.take m0)) hcsm0
      rw [hsplit, stackUnits_append]
      have : (stackUnits (some t)
          (stackUnits (some t) ⟨net, 1, 1⟩ (units.take m0))
          ((units.take j).drop m0)).currentStride = n := by
        have := hstay
        rw [ht] at this
        exact_mod_cast this
      omega
    · push_neg at hj
      rcases stackUnits_track t (units.take j) ⟨net, 1, 1⟩ with h | h
      · have : (stackUnits (some t) ⟨net, 1, 1⟩ (units.take j)).currentStride = n := by
          rw [ht] at h
          exact_mod_cast h
        omega
      · rw [h, Nat.one_mul]
        have hsplit : units.take m0 = units.take j ++ (units.take m0).drop j := by
          have h1 : (units.take m0).take j = units.take j := by
            rw [List.take_take, Nat.min_eq_left (Nat.le_of_lt hj)]
          conv_lhs => rw [← List.take_append_drop j (units.take m0)]
          rw [h1]
        have hrest : 0 < strideProduct ((units.take m0).drop j) := by
          apply strideProduct_pos
          intro u hu
          exact hstr u (List.take_subset m0 units (List.drop_subset _ _ hu))
        have : strideProduct (units.take j) * strideProduct ((units.take m0).drop j) = n := by
          rw [← strideProduct_append, ← hsplit, hp0]
        calc strideProduct (units.take j)
            ≤ strideProduct (units.take j) * strideProduct ((units.take m0).drop j) :=
              Nat.le_mul_of_pos_right _ hrest
          _ = n := this
  · intro u hu
    have htake : units.take (j + 1) = units.take j ++ [u] := by
      rw [List.take_succ, hu]
      rfl
    have hstep : stackUnits (some t) ⟨net, 1, 1⟩ (units.take (j + 1)) =
        stackUnit (some t) (stackUnits (some t) ⟨net, 1, 1⟩ (units.take j)) u := by
      rw [htake, stackUnits_append]
      rfl
    constructor
    · intro hlt
      have hne : ¬ ((stackUnits (some t) ⟨net, 1, 1⟩ (units.take j)).currentStride
          : Rat) = t.val := by
        rw [ht]
        intro hcontra
        have : (stackUnits (some t) ⟨net, 1, 1⟩ (units.take j)).currentStride = n := by
          exact_mod_cast hcontra
        omega
      rw [hstep]
      simp [stackUnit, hne]
    · intro heq
      rw [hstep]
      simp [stackUnit, heq, ht]

/-- Witness for the amended C3: the resnet-50 units with target stride 8
(reachable: the product of all 16 nominal strides is 8), instantiated at the
prefix of length 9; the cumulative stride there is within the budget. -/
theorem c3_stride_budget_invariant_witness :
    ((PyNum.float 8).val = ((8 : Nat) : Rat)) ∧
    (∀ u ∈ resnet_v2_50_blocks.flatMap Block.args, 1 ≤ u.stride) ∧
    ((resnet_v2_50_blocks.flatMap Block.args).length = 16 ∧
      strideProduct ((resnet_v2_50_blocks.flatMap Block.args).take 16) = 8) ∧
    (stackUnits (some (PyNum.float 8)) ⟨TExpr.input ⟨1, 224, 224, 3⟩, 1, 1⟩
        ((resnet_v2_50_blocks.flatMap Block.args).take 9)).currentStride ≤ 8 :=
  ⟨by norm_num [PyNum.val], by decide, ⟨by decide, by decide⟩,
    (c3_stride_budget_invariant (resnet_v2_50_blocks.flatMap Block.args)
      (PyNum.float 8) 8 (by norm_num [PyNum.val]) (by decide)
      ⟨16, by decide, by decide⟩ (TExpr.input ⟨1, 224, 224, 3⟩) 9).1⟩

/-- C4: if the target output stride cannot be realized by the cumulative
product of the nominal unit strides at any prefix of the unit sequence, the
block stack fails with the unreachable-stride configuration error — which in
`stack_blocks_dense` is raised by the check performed after all units have
been processed, not by silently producing a different stride. -/
theorem c4_unreachable_stride_fails (net : TExpr) (blocks : List Block)
    (t : PyNum)
    (hunreach : ∀ k, k ≤ (blocks.flatMap Block.args).length →
      ((strideProduct ((blocks.flatMap Block.args).take k) : Nat) : Rat) ≠ t.val) :
    stack_blocks_dense net blocks (some t) = Except.error valueErrorUnreachable := by
  have hfin :
      ¬ ((stackUnits (some t) ⟨net, 1, 1⟩ (blocks.flatMap Block.args)).currentStride
          : Rat) = t.val := by
    intro hval
    rcases stackUnits_hit t (blocks.flatMap Block.args) ⟨net, 1, 1⟩ hval with h1 | ⟨m, hm, hv⟩
    · exact hunreach 0 (Nat.zero_le _) (by simpa [strideProduct] using h1)
    · exact hunreach m hm (by simpa using hv)
  unfold stack_blocks_dense
  simp [hfin]

/-- Witness for C4: the resnet-50 block configuration with target stride 6
(a value no prefix of the unit strides multiplies out to, the reachable
values being 1, 2, 4 and 8) fails with the unreachable-stride error. -/
theorem c4_unreachable_stride_fails_witness :
    (∀ k, k ≤ (resnet_v2_50_blocks.flatMap Block.args).length →
      ((strideProduct ((resnet_v2_50_blocks.flatMap Block.args).take k) : Nat) : Rat) ≠
        (PyNum.float 6).val) ∧
    stack_blocks_dense (TExpr.input ⟨1, 224, 224, 3⟩) resnet_v2_50_blocks
      (some (PyNum.float 6)) = Except.error valueErrorUnreachable :=
  ⟨by decide,
    c4_unreachable_stride_fails (TExpr.input ⟨1, 224, 224, 3⟩) resnet_v2_50_blocks
      (PyNum.float 6) (by decide)⟩

/-- C7: for every variant (50/101/152/200) with output stride unset, the
spatial downsampling factor from the input to the pre-classification-head
tensor equals 32.  Structurally: each variant has four blocks whose nominal
strides multiply to 8, the first three blocks close with a stride-2 unit
(all their other units at stride 1) and every unit of the fourth block has
stride 1; the root stem (stride-2 convolution followed by the stride-2 max
pool) contributes the remaining factor of 4, so a 32k-by-32k input yields a
k-by-k pre-head tensor. -/
theorem c7_downsampling_factor_32 :
    (∀ blocks ∈ [resnet_v2_50_blocks, resnet_v2_101_blocks,
        resnet_v2_152_blocks, resnet_v2_200_blocks],
      blocks.length = 4 ∧
      strideProduct (blocks.flatMap Block.args) = 8 ∧
      (∀ b ∈ blocks.take 3,
        (b.args.getLast?).map UnitArgs.stride = some 2 ∧
        ∀ u ∈ b.args.dropLast, u.stride = 1) ∧
      (∀ b ∈ blocks.drop 3, ∀ u ∈ b.args, u.stride = 1))
    ∧ (∀ bt k c : Nat,
        (resnet_v2_core (TExpr.input ⟨bt, 32 * k, 32 * k, c⟩) resnet_v2_50_blocks
            none false none true).map (fun r => shapeOf r.net) =
          Except.ok (some ⟨bt, k, k, 2048⟩) ∧
        (resnet_v2_core (TExpr.input ⟨bt, 32 * k, 32 * k, c⟩) resnet_v2_101_blocks
            none false none true).map (fun r => shapeOf r.net) =
          Except.ok (some ⟨bt, k, k, 2048⟩) ∧
        (resnet_v2_core (TExpr.input ⟨bt, 32 * k, 32 * k, c⟩) resnet_v2_152_blocks
            none false none true).map (fun r => shapeOf r.net) =
          Except.ok (some ⟨bt, k, k, 2048⟩) ∧
        (resnet_v2_core (TExpr.input ⟨bt, 32 * k, 32 * k, c⟩) resnet_v2_200_blocks
            none false none true).map (fun r => shapeOf r.net) =
          Except.ok (some ⟨bt, k, k, 2048⟩)) := by
  refine ⟨by decide, fun bt k c => ?_⟩
  exact ⟨variant_core_shape 2 3 5 3 resnet_v2_50_blocks rfl (by decide) bt k c,
    variant_core_shape 2 3 22 3 resnet_v2_101_blocks rfl (by decide) bt k c,
    variant_core_shape 2 7 35 3 resnet_v2_152_blocks rfl (by decide) bt k c,
    variant_core_shape 2 23 35 3 resnet_v2_200_blocks rfl (by decide) bt k c⟩

/-- Witness for C7: the structural facts instantiated at the resnet-50
configuration, and the shape computation instantiated at a batch-1 input of
spatial size 224 (= 32 times 7) with 3 channels. -/
theorem c7_downsampling_factor_32_witness :
    (resnet_v2_50_blocks.length = 4 ∧
      strideProduct (resnet_v2_50_blocks.flatMap Block.args) = 8 ∧
      (∀ b ∈ resnet_v2_50_blocks.take 3,
        (b.args.getLast?).map UnitArgs.stride = some 2 ∧
        ∀ u ∈ b.args.dropLast, u.stride = 1) ∧
      (∀ b ∈ resnet_v2_50_blocks.drop 3, ∀ u ∈ b.args, u.stride = 1)) ∧
    (resnet_v2_core (TExpr.input ⟨1, 32 * 7, 32 * 7, 3⟩) resnet_v2_50_blocks
        none false none true).map (fun r => shapeOf r.net) =
      Except.ok (some ⟨1, 7, 7, 2048⟩) :=
  ⟨c7_downsampling_factor_32.1 resnet_v2_50_blocks (by simp),
    (c7_downsampling_factor_32.2 1 7 3).1⟩

/-- Witness for C10: with the root block excluded, output stride 6 (not a
multiple of 4) is forwarded unvalidated and undivided; with the root block
included, output stride 8 passes validation and is handed on as the float
2 (not an int). -/
theorem c10_validation_only_with_root_block_witness :
    effectiveOutputStride false (some 6) = Except.ok (some (PyNum.int 6)) ∧
    ((8 : Int) % 4 = 0 ∧
      effectiveOutputStride true (some 8) =
        Except.ok (some (PyNum.float ((8 : Rat) / 4)))) :=
  ⟨c10_validation_only_with_root_block.1 6,
    by decide,
    (c10_validation_only_with_root_block.2.2 8 (by decide)).1⟩

/-- Witness for C9 at a concrete input of shape [2, 5, 7, 16]. -/
theorem c9_bottleneck_shape_preserving_witness :
    shapeOf (TExpr.input ⟨2, 5, 7, 16⟩) = some ⟨2, 5, 7, 16⟩ ∧
    shapeOf (bottleneck (TExpr.input ⟨2, 5, 7, 16⟩) 16 4 1 3) = some ⟨2, 5, 7, 16⟩ :=
  ⟨rfl, c9_bottleneck_shape_preserving (TExpr.input ⟨2, 5, 7, 16⟩) ⟨2, 5, 7, 16⟩ 4 3 rfl⟩

end Tefla
